import Mathlib

/-!
Verification of the rc_bump region allocator.

The development shallowly embeds the crate's core: the `Metadata`-backed
`Bump` arena, its owning (`BumpMember`) and shared (`RcBumpMember`) handles,
the arena-rotating `Paving`, and the never-failing `MixedPaving`.  Machine
addresses and sizes are modelled as `Nat` with the `usize` overflow checks of
the source made explicit (`checkedAdd`); values stored in an arena are
modelled by a polymorphic store `Nat → Option (Slot V)` mapping the write
address to the stored payload, where `Slot.entry` is the crate's
`BumpRcEntry` (a private reference count next to the value) and `Slot.bare`
is a directly stored value.  Rust fatal aborts are modelled as
`Except.error`.  Destructor and deallocation ordering is made observable by
letting the drop operations emit an event trace.
-/

/-- usize arithmetic wraps at this bound; `checked_add` fails at it. -/
def USIZE : Nat := 2 ^ 64

/-- Largest valid Rust object size / `Layout` size bound (`isize::MAX`). -/
def ISIZE_MAX : Nat := 2 ^ 63 - 1

/-- A monomorphized Rust type as the allocator sees it: its size, its
alignment and whether `core::mem::needs_drop` holds for it. -/
structure RustType where
  size : Nat
  align : Nat
  needsDrop : Bool
deriving DecidableEq

/-- Boolean test that `n` is a power of two representable in a `usize`,
mirroring `usize::is_power_of_two`. -/
def isPow2 (n : Nat) : Bool := (List.range 64).any fun k => n = 2 ^ k

/-- Well-formedness of a Rust type layout: the alignment is a power of two,
the size is a multiple of the alignment, and the size fits `isize::MAX`.
Every real Rust type satisfies this. -/
def RustType.wf (t : RustType) : Bool :=
  isPow2 t.align && (t.size % t.align == 0) && decide (t.size ≤ ISIZE_MAX)

/-- Overflow-checked `usize` addition, `usize::checked_add`. -/
def checkedAdd (a b : Nat) : Option Nat :=
  if a + b < USIZE then some (a + b) else none

/-- Padding from `addr` up to the next multiple of `align`,
`<*mut u8>::align_offset`. -/
def alignOffset (addr align : Nat) : Nat := (align - addr % align) % align

/-- Round `n` up to the next multiple of `a` (for `a > 0`). -/
def roundUp (n a : Nat) : Nat := (n + a - 1) / a * a

/-- Rust `core::alloc::Layout`: a size/alignment pair. -/
structure Layout where
  size : Nat
  align : Nat
deriving DecidableEq

/-- Rust `Layout::from_size_align`: fails when the alignment is not a power of
two or when the size, padded to the alignment, overflows `isize::MAX`. -/
def Layout.fromSizeAlign (size align : Nat) : Option Layout :=
  if isPow2 align = true ∧ size + (align - 1) ≤ ISIZE_MAX then
    some ⟨size, align⟩
  else none

/-- Rust `Layout::extend`: place `next` after `l`, returning the combined layout
and the offset at which `next` starts. -/
def Layout.extend (l next : Layout) : Option (Layout × Nat) :=
  let newAlign := max l.align next.align
  let offset := roundUp l.size next.align
  match Layout.fromSizeAlign (offset + next.size) newAlign with
  | some l2 => some (l2, offset)
  | none => none

/-- Layout of the crate's `Metadata` struct on a 64-bit target:
`count: u64`, `beg: NonNull<u8>`, `layout: Layout` give size 32, align 8. -/
def metadataLayout : Layout := ⟨32, 8⟩

/-- Rust `inner_bump_layout`: the layout of a whole bump block, `capacity` data
bytes at alignment `align` followed by the `Metadata`, together with the
offset of the `Metadata` inside the block. -/
def inner_bump_layout (capacity align : Nat) : Option (Layout × Nat) :=
  match Layout.fromSizeAlign capacity align with
  | some l => l.extend metadataLayout
  | none => none

/-- Contents of one allocated arena slot: either a bare value (`try_alloc`,
and `try_alloc_rc` for types without destructor) or a `BumpRcEntry`
carrying its private reference count (`try_alloc_rc` for types with a
destructor). -/
inductive Slot (V : Type) where
  | bare (v : V)
  | entry (count : Nat) (v : V)
deriving DecidableEq

/-- State of one `Bump` arena together with its `Metadata`: the block start,
the address of the `Metadata` (the upper bound of the data region), the bump
pointer `first_free`, the metadata's liveness `count`, whether the block has
been deallocated, and the values written into the block. -/
structure Bump (V : Type) where
  beg : Nat
  metaAddr : Nat
  first_free : Nat
  count : Nat
  freed : Bool
  store : Nat → Option (Slot V)

/-- A `RawBumpMember`: the metadata address and the slot address. -/
structure RawBumpMember where
  metadata : Nat
  data : Nat
deriving DecidableEq

/-- An owning handle (`BumpMember<T>`). -/
structure BumpMember where
  metadata : Nat
  data : Nat
deriving DecidableEq

/-- A shared handle (`RcBumpMember<T>`). -/
structure RcBumpMember where
  metadata : Nat
  rc_data : Nat
deriving DecidableEq

/-- Observable effects of dropping handles: the pointee's destructor running,
the arena-level count being decremented, and the block being deallocated. -/
inductive Event where
  | destructorRun
  | arenaDecrement
  | blockFreed
deriving DecidableEq

/-- Rust `Metadata::decrement_and_drop`: decrement the arena-level count and
deallocate the block when it reaches zero. -/
def decrement_and_drop {V : Type} (b : Bump V) : Bump V × List Event :=
  let c := b.count - 1
  ({ b with count := c, freed := if c = 0 then true else b.freed },
   Event.arenaDecrement :: (if c = 0 then [Event.blockFreed] else []))

/-- Rust `Bump::can_fit::<T>`: compute the aligned write address and the new bump
pointer, failing on `usize` overflow or when the slot would end past the
`Metadata` address. -/
def Bump.can_fit {V : Type} (b : Bump V) (t : RustType) : Option (Nat × Nat) :=
  let first_free := b.first_free
  let align_offset := alignOffset first_free t.align
  (checkedAdd first_free align_offset).bind fun tentative_start =>
    (checkedAdd tentative_start t.size).bind fun tentative_end =>
      if tentative_end ≤ b.metaAddr then some (tentative_start, tentative_end)
      else none

/-- Rust `Bump::try_alloc_inner`: on success write the slot at the aligned
address, bump `first_free`, increment the arena count and hand out a raw
member; on failure return the slot contents unchanged and leave the arena
untouched. -/
def Bump.try_alloc_inner {V : Type} (b : Bump V) (t : RustType) (s : Slot V) :
    Except (Slot V) RawBumpMember × Bump V :=
  match b.can_fit t with
  | none => (Except.error s, b)
  | some (start, end_) =>
      (Except.ok ⟨b.metaAddr, start⟩,
       { b with
         store := fun n => if n = start then some s else b.store n,
         count := b.count + 1,
         first_free := end_ })

/-- Rust `Bump::try_alloc`: allocate an owning handle to a bare value. -/
def Bump.try_alloc {V : Type} (b : Bump V) (t : RustType) (v : V) :
    Except V BumpMember × Bump V :=
  match b.try_alloc_inner t (Slot.bare v) with
  | (Except.ok r, b') => (Except.ok ⟨r.metadata, r.data⟩, b')
  | (Except.error _, b') => (Except.error v, b')

/-- Layout of `BumpRcEntry<T>` (`count: usize` then `value: T`, fields in
declaration order): the value sits after the count at its own alignment and
the struct is padded to `max 8 (align T)`. -/
def entryType (t : RustType) : RustType :=
  { size := roundUp (roundUp 8 t.align + t.size) (max 8 t.align),
    align := max 8 t.align,
    needsDrop := true }

/-- Rust `Bump::try_alloc_rc`: for a type with a destructor allocate a
`BumpRcEntry` with private count 1, otherwise allocate the bare value;
either way the arena count is incremented once by `try_alloc_inner`. -/
def Bump.try_alloc_rc {V : Type} (b : Bump V) (t : RustType) (v : V) :
    Except V RcBumpMember × Bump V :=
  if t.needsDrop then
    match b.try_alloc_inner (entryType t) (Slot.entry 1 v) with
    | (Except.ok r, b') => (Except.ok ⟨r.metadata, r.data⟩, b')
    | (Except.error _, b') => (Except.error v, b')
  else
    match b.try_alloc_inner t (Slot.bare v) with
    | (Except.ok r, b') => (Except.ok ⟨r.metadata, r.data⟩, b')
    | (Except.error _, b') => (Except.error v, b')

/-- Rust `Deref for BumpMember`: read the owned slot. -/
def BumpMember.deref {V : Type} (h : BumpMember) (b : Bump V) : Option V :=
  match b.store h.data with
  | some (Slot.bare v) => some v
  | _ => none

/-- Writing through `DerefMut for BumpMember`: replace the owned value. -/
def BumpMember.derefMutSet {V : Type} (h : BumpMember) (b : Bump V) (w : V) :
    Bump V :=
  { b with store := fun n => if n = h.data then some (Slot.bare w) else b.store n }

/-- Rust `Deref for RcBumpMember`: read through the destructor-dependent layout. -/
def RcBumpMember.deref {V : Type} (h : RcBumpMember) (t : RustType) (b : Bump V) :
    Option V :=
  if t.needsDrop then
    match b.store h.rc_data with
    | some (Slot.entry _ v) => some v
    | _ => none
  else
    match b.store h.rc_data with
    | some (Slot.bare v) => some v
    | _ => none

/-- Rust `Clone for RcBumpMember`: bump the entry's private count in the wrapped
layout, or the arena-level count in the bare layout; nothing else changes and
the clone is the same pointer pair. -/
def RcBumpMember.clone {V : Type} (h : RcBumpMember) (t : RustType) (b : Bump V) :
    RcBumpMember × Bump V :=
  if t.needsDrop then
    match b.store h.rc_data with
    | some (Slot.entry c v) =>
        (h, { b with store := fun n => if n = h.rc_data then some (Slot.entry (c + 1) v) else b.store n })
    | _ => (h, b)
  else (h, { b with count := b.count + 1 })

/-- Rust `Drop for RcBumpMember`: in the wrapped layout decrement the entry's
private count and, exactly when it reaches zero, run the destructor and then
`decrement_and_drop` the metadata; in the bare layout only
`decrement_and_drop`. -/
def RcBumpMember.dropHandle {V : Type} (h : RcBumpMember) (t : RustType)
    (b : Bump V) : Bump V × List Event :=
  if t.needsDrop then
    match b.store h.rc_data with
    | some (Slot.entry c v) =>
        let c' := c - 1
        let b1 : Bump V :=
          { b with store := fun n => if n = h.rc_data then some (Slot.entry c' v) else b.store n }
        if c' = 0 then
          let r := decrement_and_drop b1
          (r.1, Event.destructorRun :: r.2)
        else (b1, [])
    | _ => (b, [])
  else decrement_and_drop b

/-- Rust `Drop for BumpMember`: run the destructor in place (observable only when
the type needs drop), then `decrement_and_drop` the metadata. -/
def BumpMember.dropHandle {V : Type} (_h : BumpMember) (t : RustType)
    (b : Bump V) : Bump V × List Event :=
  let r := decrement_and_drop b
  (r.1, (if t.needsDrop then [Event.destructorRun] else []) ++ r.2)

/-- Dropping `n` shared handles of the same entry, one after the other,
collecting the emitted events. -/
def dropRcN {V : Type} (h : RcBumpMember) (t : RustType) :
    Nat → Bump V → Bump V × List Event
  | 0, b => (b, [])
  | Nat.succ n, b =>
      let r := h.dropHandle t b
      let r2 := dropRcN h t n r.1
      (r2.1, r.2 ++ r2.2)

/-- Iterated `Metadata::decrement_and_drop`: release `n` stakes on a block,
collecting the emitted events. -/
def decN {V : Type} : Nat → Bump V → Bump V × List Event
  | 0, b => (b, [])
  | Nat.succ n, b =>
      let r := decrement_and_drop b
      let r2 := decN n r.1
      (r2.1, r.2 ++ r2.2)

/-- Rust `Bump::new` with the fatal aborts made explicit: `Except.error` models
the aborts on zero capacity, layout computation failure and allocation
provider failure (`provider = none` models `alloc` returning null, and
`provider = some beg` a block at address `beg`).  On success the metadata
count starts at 1 and `first_free` is the start of the data region. -/
def Bump.newChecked (V : Type) (capacity align : Nat) (provider : Option Nat) :
    Except Unit (Bump V) :=
  if capacity = 0 then Except.error ()
  else
    match inner_bump_layout capacity align with
    | none => Except.error ()
    | some (_, metadata_offset) =>
        match provider with
        | none => Except.error ()
        | some beg =>
            Except.ok
              { beg := beg, metaAddr := beg + metadata_offset,
                first_free := beg, count := 1, freed := false,
                store := fun _ => none }

/-- The success path of `Bump::new` for a configuration already validated by
`Paving::new` (the offset of the `Metadata` is `roundUp capacity 8`). -/
def Bump.newRaw (V : Type) (capacity align beg : Nat) : Bump V :=
  { beg := beg, metaAddr := beg + roundUp capacity 8, first_free := beg,
    count := 1, freed := false, store := fun _ => none }

/-- Rust `Paving`: the bump configuration plus the current bump. -/
structure Paving (V : Type) where
  capacity : Nat
  align : Nat
  current_bump : Bump V

/-- Rust `Paving::try_alloc`.  `freshBeg` is the block address the memory provider
returns for the replacement bump if one is created.  The third component is
the state of the previous current bump after it is dropped by the
replacement assignment (`None` when no replacement happened). -/
def Paving.try_alloc {V : Type} (p : Paving V) (t : RustType) (v : V)
    (freshBeg : Nat) : Except V BumpMember × Paving V × Option (Bump V) :=
  if 2 * t.size > p.capacity then (Except.error v, p, none)
  else
    match p.current_bump.try_alloc t v with
    | (Except.ok h, b') => (Except.ok h, { p with current_bump := b' }, none)
    | (Except.error v', _) =>
        let old := (decrement_and_drop p.current_bump).1
        let nb := Bump.newRaw V p.capacity p.align freshBeg
        match nb.try_alloc t v' with
        | (Except.ok h, b') => (Except.ok h, { p with current_bump := b' }, some old)
        | (Except.error v'', b') => (Except.error v'', { p with current_bump := b' }, some old)

/-- Rust `Paving::try_alloc_rc`, same rotation discipline as `Paving::try_alloc`. -/
def Paving.try_alloc_rc {V : Type} (p : Paving V) (t : RustType) (v : V)
    (freshBeg : Nat) : Except V RcBumpMember × Paving V × Option (Bump V) :=
  if 2 * t.size > p.capacity then (Except.error v, p, none)
  else
    match p.current_bump.try_alloc_rc t v with
    | (Except.ok h, b') => (Except.ok h, { p with current_bump := b' }, none)
    | (Except.error v', _) =>
        let old := (decrement_and_drop p.current_bump).1
        let nb := Bump.newRaw V p.capacity p.align freshBeg
        match nb.try_alloc_rc t v' with
        | (Except.ok h, b') => (Except.ok h, { p with current_bump := b' }, some old)
        | (Except.error v'', b') => (Except.error v'', { p with current_bump := b' }, some old)

/-- Rust `OwnedMixedPavingMember`: arena-backed or heap-backed owning handle. -/
inductive OwnedMixedPavingMember (V : Type) where
  | bumpMember (h : BumpMember)
  | box (v : V)

/-- Rust `SharedMixedPavingMember`: arena-backed or heap-backed shared handle. -/
inductive SharedMixedPavingMember (V : Type) where
  | rcBumpMember (h : RcBumpMember)
  | rc (v : V)

/-- Rust `MixedPaving`: a newtype around `Paving`. -/
structure MixedPaving (V : Type) where
  paving : Paving V

/-- Rust `MixedPaving::alloc`: paving path first, `Box` fallback on rejection. -/
def MixedPaving.alloc {V : Type} (m : MixedPaving V) (t : RustType) (v : V)
    (freshBeg : Nat) : OwnedMixedPavingMember V × MixedPaving V :=
  match m.paving.try_alloc t v freshBeg with
  | (Except.ok h, p', _) => (OwnedMixedPavingMember.bumpMember h, ⟨p'⟩)
  | (Except.error val, p', _) => (OwnedMixedPavingMember.box val, ⟨p'⟩)

/-- Rust `MixedPaving::alloc_rc`: paving path first, `Rc` fallback on rejection. -/
def MixedPaving.alloc_rc {V : Type} (m : MixedPaving V) (t : RustType) (v : V)
    (freshBeg : Nat) : SharedMixedPavingMember V × MixedPaving V :=
  match m.paving.try_alloc_rc t v freshBeg with
  | (Except.ok h, p', _) => (SharedMixedPavingMember.rcBumpMember h, ⟨p'⟩)
  | (Except.error val, p', _) => (SharedMixedPavingMember.rc val, ⟨p'⟩)

/-- Rust `Deref` for the owned mixed handle: identical access on both variants. -/
def OwnedMixedPavingMember.deref {V : Type} (m : OwnedMixedPavingMember V)
    (b : Bump V) : Option V :=
  match m with
  | OwnedMixedPavingMember.bumpMember h => h.deref b
  | OwnedMixedPavingMember.box v => some v

/-- Rust `Deref` for the shared mixed handle: identical access on both variants. -/
def SharedMixedPavingMember.deref {V : Type} (m : SharedMixedPavingMember V)
    (t : RustType) (b : Bump V) : Option V :=
  match m with
  | SharedMixedPavingMember.rcBumpMember h => h.deref t b
  | SharedMixedPavingMember.rc v => some v

/-- Whether an `Except` is a success, `Result::is_ok`. -/
def exceptIsOk {E A : Type} : Except E A → Bool
  | Except.ok _ => true
  | Except.error _ => false

/-- The layout actually allocated by `Bump::try_alloc_rc`: the wrapped
`BumpRcEntry<T>` when `T` needs drop, the bare `T` otherwise. -/
def rcLayout (t : RustType) : RustType := if t.needsDrop then entryType t else t

/-- The slot contents stored by `Bump::try_alloc_rc`: a counted entry with
private count 1 when `T` needs drop, the bare value otherwise. -/
def rcSlot {V : Type} (t : RustType) (v : V) : Slot V :=
  if t.needsDrop then Slot.entry 1 v else Slot.bare v

/-- Concrete arena used by witnesses: a fresh 16-byte bump at address 8. -/
def bumpW : Bump Nat :=
  { beg := 8, metaAddr := 24, first_free := 8, count := 1, freed := false,
    store := fun _ => none }

/-- Concrete paving used by witnesses: 16-byte bumps, current one fresh. -/
def pavingW : Paving Nat := ⟨16, 8, bumpW⟩

/-- Concrete arena with one counted entry (count 2) at address 8, used by
witnesses. -/
def bumpEW : Bump Nat :=
  { beg := 8, metaAddr := 24, first_free := 24, count := 2, freed := false,
    store := fun n => if n = 8 then some (Slot.entry 2 5) else none }

/-- Concrete exhausted arena with no outstanding handles (count 1). -/
def bumpFullW : Bump Nat :=
  { beg := 8, metaAddr := 24, first_free := 24, count := 1, freed := false,
    store := fun _ => none }

/-- Concrete paving whose current arena is `bumpFullW`. -/
def pavingFullW : Paving Nat := ⟨16, 8, bumpFullW⟩

/-- Full arena (no data space left) used by the C10 counterexample. -/
def bumpRcZstW : Bump Nat :=
  { beg := 8, metaAddr := 24, first_free := 24, count := 1, freed := false,
    store := fun _ => none }

/-- Arena whose `first_free` is not 8-aligned, used by the C10
counterexample. -/
def bumpMisalignedW : Bump Nat :=
  { beg := 8, metaAddr := 24, first_free := 9, count := 1, freed := false,
    store := fun _ => none }

/-- A power of two is positive. -/
lemma isPow2_pos {n : Nat} (h : isPow2 n = true) : 0 < n := by
  unfold isPow2 at h
  rw [List.any_eq_true] at h
  obtain ⟨k, _, hk⟩ := h
  have := of_decide_eq_true hk
  subst this
  exact Nat.pos_pow_of_pos k (by norm_num)

/-- Well-formed types have positive alignment. -/
lemma wf_align_pos {t : RustType} (h : t.wf = true) : 0 < t.align := by
  unfold RustType.wf at h
  simp only [Bool.and_eq_true] at h
  exact isPow2_pos h.1.1

/-- Well-formedness gives that the alignment divides the size. -/
lemma wf_align_dvd {t : RustType} (h : t.wf = true) : t.align ∣ t.size := by
  unfold RustType.wf at h
  simp only [Bool.and_eq_true, beq_iff_eq] at h
  exact Nat.dvd_of_mod_eq_zero h.1.2

/-- For a nonempty well-formed type the alignment is at most the size. -/
lemma wf_align_le_size {t : RustType} (h : t.wf = true) (hs : 0 < t.size) :
    t.align ≤ t.size :=
  Nat.le_of_dvd hs (wf_align_dvd h)

/-- Alignment padding is less than the alignment. -/
lemma alignOffset_lt (n : Nat) {a : Nat} (ha : 0 < a) : alignOffset n a < a := by
  unfold alignOffset
  exact Nat.mod_lt _ ha

/-- Rounding up does not decrease. -/
lemma roundUp_ge (n : Nat) {a : Nat} (ha : 0 < a) : n ≤ roundUp n a := by
  unfold roundUp
  have h1 : (n + a - 1) % a < a := Nat.mod_lt _ ha
  have h2 : (n + a - 1) % a + a * ((n + a - 1) / a) = n + a - 1 :=
    Nat.mod_add_div _ _
  have h3 : (n + a - 1) / a * a = a * ((n + a - 1) / a) := Nat.mul_comm _ _
  omega

/-- Central specification of `Bump::try_alloc_inner`: the call fails, with no
state change, exactly when the padded slot would end past the `Metadata`
address; on success it writes the slot at the padded address, bumps
`first_free` just past it and increments the count by one. -/
lemma try_alloc_inner_spec {V : Type} (b : Bump V) (t : RustType) (s : Slot V)
    (hmeta : b.metaAddr < USIZE) :
    (b.metaAddr < b.first_free + alignOffset b.first_free t.align + t.size →
      b.try_alloc_inner t s = (Except.error s, b)) ∧
    (b.first_free + alignOffset b.first_free t.align + t.size ≤ b.metaAddr →
      b.try_alloc_inner t s =
        (Except.ok ⟨b.metaAddr, b.first_free + alignOffset b.first_free t.align⟩,
         { b with
           store := fun n =>
             if n = b.first_free + alignOffset b.first_free t.align then some s
             else b.store n,
           count := b.count + 1,
           first_free := b.first_free + alignOffset b.first_free t.align + t.size })) := by
  constructor
  · intro hgt
    simp only [Bump.try_alloc_inner, Bump.can_fit, checkedAdd]
    by_cases h1 : b.first_free + alignOffset b.first_free t.align < USIZE
    · rw [if_pos h1]
      simp only [Option.some_bind]
      by_cases h2 : b.first_free + alignOffset b.first_free t.align + t.size < USIZE
      · rw [if_pos h2]
        simp only [Option.some_bind]
        rw [if_neg (by omega)]
      · rw [if_neg h2]
        simp only [Option.none_bind]
    · rw [if_neg h1]
      simp only [Option.none_bind]
  · intro hle
    have h1 : b.first_free + alignOffset b.first_free t.align < USIZE := by omega
    have h2 : b.first_free + alignOffset b.first_free t.align + t.size < USIZE := by
      omega
    simp only [Bump.try_alloc_inner, Bump.can_fit, checkedAdd]
    rw [if_pos h1]
    simp only [Option.some_bind]
    rw [if_pos h2]
    simp only [Option.some_bind]
    rw [if_pos hle]

/-- Rust `Bump::try_alloc_rc` is `try_alloc_inner` at the destructor-dependent
layout and slot. -/
lemma try_alloc_rc_eq {V : Type} (b : Bump V) (t : RustType) (v : V) :
    b.try_alloc_rc t v =
      match b.try_alloc_inner (rcLayout t) (rcSlot t v) with
      | (Except.ok r, b') => (Except.ok ⟨r.metadata, r.data⟩, b')
      | (Except.error _, b') => (Except.error v, b') := by
  unfold Bump.try_alloc_rc rcLayout rcSlot
  by_cases h : t.needsDrop <;> simp [h]

/-- Rust `Bump::try_alloc` failure: value returned unchanged, arena untouched. -/
lemma try_alloc_fail {V : Type} (b : Bump V) (t : RustType) (v : V)
    (hmeta : b.metaAddr < USIZE)
    (hgt : b.metaAddr < b.first_free + alignOffset b.first_free t.align + t.size) :
    b.try_alloc t v = (Except.error v, b) := by
  unfold Bump.try_alloc
  rw [(try_alloc_inner_spec b t (Slot.bare v) hmeta).1 hgt]

/-- Rust `Bump::try_alloc` success: the value is written at the padded address,
`first_free` advances just past it and the count goes up by one. -/
lemma try_alloc_success {V : Type} (b : Bump V) (t : RustType) (v : V)
    (hmeta : b.metaAddr < USIZE)
    (hle : b.first_free + alignOffset b.first_free t.align + t.size ≤ b.metaAddr) :
    b.try_alloc t v =
      (Except.ok ⟨b.metaAddr, b.first_free + alignOffset b.first_free t.align⟩,
       { b with
         store := fun n =>
           if n = b.first_free + alignOffset b.first_free t.align then
             some (Slot.bare v)
           else b.store n,
         count := b.count + 1,
         first_free := b.first_free + alignOffset b.first_free t.align + t.size }) := by
  unfold Bump.try_alloc
  rw [(try_alloc_inner_spec b t (Slot.bare v) hmeta).2 hle]

/-- Rust `Bump::try_alloc_rc` failure: value returned unchanged, arena
untouched. -/
lemma try_alloc_rc_fail {V : Type} (b : Bump V) (t : RustType) (v : V)
    (hmeta : b.metaAddr < USIZE)
    (hgt : b.metaAddr <
      b.first_free + alignOffset b.first_free (rcLayout t).align + (rcLayout t).size) :
    b.try_alloc_rc t v = (Except.error v, b) := by
  rw [try_alloc_rc_eq]
  rw [(try_alloc_inner_spec b (rcLayout t) (rcSlot t v) hmeta).1 hgt]

/-- Rust `Bump::try_alloc_rc` success: the destructor-dependent slot is written
at the padded address and the arena count goes up by one. -/
lemma try_alloc_rc_success {V : Type} (b : Bump V) (t : RustType) (v : V)
    (hmeta : b.metaAddr < USIZE)
    (hle : b.first_free + alignOffset b.first_free (rcLayout t).align +
      (rcLayout t).size ≤ b.metaAddr) :
    b.try_alloc_rc t v =
      (Except.ok ⟨b.metaAddr, b.first_free + alignOffset b.first_free (rcLayout t).align⟩,
       { b with
         store := fun n =>
           if n = b.first_free + alignOffset b.first_free (rcLayout t).align then
             some (rcSlot t v)
           else b.store n,
         count := b.count + 1,
         first_free := b.first_free + alignOffset b.first_free (rcLayout t).align +
           (rcLayout t).size }) := by
  rw [try_alloc_rc_eq]
  rw [(try_alloc_inner_spec b (rcLayout t) (rcSlot t v) hmeta).2 hle]

/-- Claim C2: `Arena.try_alloc` fails and returns the value with no state
change exactly when `first_free` plus padding plus the size would pass the
metadata address; otherwise it writes the value at `first_free + padding`,
advances `first_free` just past it, increments `count` by one and hands out
an owning handle to that slot; `Arena.try_alloc_rc` performs the identical
bound check on the destructor-dependent layout and increments `count` by
exactly one on success. -/
theorem arena_try_alloc_state_spec {V : Type} (b : Bump V) (t : RustType) (v : V)
    (hmeta : b.metaAddr < USIZE) :
    (b.metaAddr < b.first_free + alignOffset b.first_free t.align + t.size →
      b.try_alloc t v = (Except.error v, b)) ∧
    (b.first_free + alignOffset b.first_free t.align + t.size ≤ b.metaAddr →
      b.try_alloc t v =
        (Except.ok ⟨b.metaAddr, b.first_free + alignOffset b.first_free t.align⟩,
         { b with
           store := fun n =>
             if n = b.first_free + alignOffset b.first_free t.align then
               some (Slot.bare v)
             else b.store n,
           count := b.count + 1,
           first_free := b.first_free + alignOffset b.first_free t.align + t.size })) ∧
    (b.metaAddr <
        b.first_free + alignOffset b.first_free (rcLayout t).align + (rcLayout t).size →
      b.try_alloc_rc t v = (Except.error v, b)) ∧
    (b.first_free + alignOffset b.first_free (rcLayout t).align + (rcLayout t).size ≤
        b.metaAddr →
      (b.try_alloc_rc t v).2.count = b.count + 1) :=
  ⟨try_alloc_fail b t v hmeta,
   try_alloc_success b t v hmeta,
   try_alloc_rc_fail b t v hmeta,
   fun hle => by rw [try_alloc_rc_success b t v hmeta hle]⟩

/-- Witness for C2 at a fresh 16-byte arena and an 8-byte type. -/
theorem arena_try_alloc_state_spec_witness :
    bumpW.metaAddr < USIZE ∧
    ((bumpW.metaAddr < bumpW.first_free +
        alignOffset bumpW.first_free (RustType.mk 8 8 false).align +
        (RustType.mk 8 8 false).size →
      bumpW.try_alloc (RustType.mk 8 8 false) 42 = (Except.error 42, bumpW)) ∧
     (bumpW.first_free + alignOffset bumpW.first_free (RustType.mk 8 8 false).align +
        (RustType.mk 8 8 false).size ≤ bumpW.metaAddr →
      bumpW.try_alloc (RustType.mk 8 8 false) 42 =
        (Except.ok ⟨bumpW.metaAddr,
           bumpW.first_free + alignOffset bumpW.first_free (RustType.mk 8 8 false).align⟩,
         { bumpW with
           store := fun n =>
             if n = bumpW.first_free +
                 alignOffset bumpW.first_free (RustType.mk 8 8 false).align then
               some (Slot.bare 42)
             else bumpW.store n,
           count := bumpW.count + 1,
           first_free := bumpW.first_free +
             alignOffset bumpW.first_free (RustType.mk 8 8 false).align +
             (RustType.mk 8 8 false).size })) ∧
     (bumpW.metaAddr < bumpW.first_free +
        alignOffset bumpW.first_free (rcLayout (RustType.mk 8 8 false)).align +
        (rcLayout (RustType.mk 8 8 false)).size →
      bumpW.try_alloc_rc (RustType.mk 8 8 false) 42 = (Except.error 42, bumpW)) ∧
     (bumpW.first_free +
        alignOffset bumpW.first_free (rcLayout (RustType.mk 8 8 false)).align +
        (rcLayout (RustType.mk 8 8 false)).size ≤ bumpW.metaAddr →
      (bumpW.try_alloc_rc (RustType.mk 8 8 false) 42).2.count = bumpW.count + 1)) :=
  ⟨by decide, arena_try_alloc_state_spec bumpW (RustType.mk 8 8 false) 42 (by decide)⟩

/-- Rust `decrement_and_drop` does not move the bump pointer or the metadata
address. -/
lemma decrement_and_drop_frame {V : Type} (b : Bump V) :
    (decrement_and_drop b).1.first_free = b.first_free ∧
    (decrement_and_drop b).1.metaAddr = b.metaAddr ∧
    (decrement_and_drop b).1.store = b.store ∧
    (decrement_and_drop b).1.count = b.count - 1 := by
  unfold decrement_and_drop
  exact ⟨rfl, rfl, rfl, rfl⟩

/-- Claim C8: every arena operation keeps `first_free` monotone and below
the metadata address, never writes a slot that reaches the metadata address,
and rejects (without writing) any allocation whose bound computation would
overflow `usize`. -/
theorem arena_bump_pointer_invariants {V : Type} (b : Bump V) (t : RustType)
    (v : V) (hff : b.first_free ≤ b.metaAddr) (hmeta : b.metaAddr < USIZE) :
    (b.first_free ≤ (b.try_alloc t v).2.first_free ∧
     (b.try_alloc t v).2.first_free ≤ (b.try_alloc t v).2.metaAddr ∧
     (b.try_alloc t v).2.metaAddr = b.metaAddr) ∧
    (∀ h, (b.try_alloc t v).1 = Except.ok h →
      h.data + t.size ≤ b.metaAddr ∧ b.first_free ≤ h.data) ∧
    (USIZE ≤ b.first_free + alignOffset b.first_free t.align + t.size →
      b.try_alloc t v = (Except.error v, b)) ∧
    (b.first_free ≤ (b.try_alloc_rc t v).2.first_free ∧
     (b.try_alloc_rc t v).2.first_free ≤ (b.try_alloc_rc t v).2.metaAddr ∧
     (b.try_alloc_rc t v).2.metaAddr = b.metaAddr) ∧
    (∀ h, (RcBumpMember.clone h t b).2.first_free = b.first_free ∧
      (RcBumpMember.dropHandle h t b).1.first_free = b.first_free) := by
  refine ⟨?_, ?_, ?_, ?_, ?_⟩
  · by_cases hle : b.first_free + alignOffset b.first_free t.align + t.size ≤ b.metaAddr
    · rw [try_alloc_success b t v hmeta hle]
      refine ⟨by simp; omega, by simpa using hle, rfl⟩
    · rw [try_alloc_fail b t v hmeta (by omega)]
      exact ⟨le_refl _, hff, rfl⟩
  · intro h hok
    by_cases hle : b.first_free + alignOffset b.first_free t.align + t.size ≤ b.metaAddr
    · rw [try_alloc_success b t v hmeta hle] at hok
      cases hok
      constructor
      · simpa using hle
      · simp
    · rw [try_alloc_fail b t v hmeta (by omega)] at hok
      cases hok
  · intro hof
    exact try_alloc_fail b t v hmeta (by omega)
  · by_cases hle : b.first_free + alignOffset b.first_free (rcLayout t).align +
        (rcLayout t).size ≤ b.metaAddr
    · rw [try_alloc_rc_success b t v hmeta hle]
      refine ⟨by simp; omega, by simpa using hle, rfl⟩
    · rw [try_alloc_rc_fail b t v hmeta (by omega)]
      exact ⟨le_refl _, hff, rfl⟩
  · intro h
    constructor
    · unfold RcBumpMember.clone
      split
      · split <;> rfl
      · rfl
    · unfold RcBumpMember.dropHandle
      split
      · split
        · dsimp only
          split <;> rfl
        · rfl
      · exact (decrement_and_drop_frame b).1

/-- Witness for C8 at a fresh 16-byte arena and an 8-byte type. -/
theorem arena_bump_pointer_invariants_witness :
    bumpW.first_free ≤ bumpW.metaAddr ∧ bumpW.metaAddr < USIZE ∧
    ((bumpW.first_free ≤ (bumpW.try_alloc (RustType.mk 8 8 false) 42).2.first_free ∧
      (bumpW.try_alloc (RustType.mk 8 8 false) 42).2.first_free ≤
        (bumpW.try_alloc (RustType.mk 8 8 false) 42).2.metaAddr ∧
      (bumpW.try_alloc (RustType.mk 8 8 false) 42).2.metaAddr = bumpW.metaAddr) ∧
     (∀ h, (bumpW.try_alloc (RustType.mk 8 8 false) 42).1 = Except.ok h →
       h.data + (RustType.mk 8 8 false).size ≤ bumpW.metaAddr ∧
       bumpW.first_free ≤ h.data) ∧
     (USIZE ≤ bumpW.first_free +
        alignOffset bumpW.first_free (RustType.mk 8 8 false).align +
        (RustType.mk 8 8 false).size →
      bumpW.try_alloc (RustType.mk 8 8 false) 42 = (Except.error 42, bumpW)) ∧
     (bumpW.first_free ≤ (bumpW.try_alloc_rc (RustType.mk 8 8 false) 42).2.first_free ∧
      (bumpW.try_alloc_rc (RustType.mk 8 8 false) 42).2.first_free ≤
        (bumpW.try_alloc_rc (RustType.mk 8 8 false) 42).2.metaAddr ∧
      (bumpW.try_alloc_rc (RustType.mk 8 8 false) 42).2.metaAddr = bumpW.metaAddr) ∧
     (∀ h, (RcBumpMember.clone h (RustType.mk 8 8 false) bumpW).2.first_free =
         bumpW.first_free ∧
       (RcBumpMember.dropHandle h (RustType.mk 8 8 false) bumpW).1.first_free =
         bumpW.first_free)) :=
  ⟨by decide, by decide,
   arena_bump_pointer_invariants bumpW (RustType.mk 8 8 false) 42 (by decide) (by decide)⟩

/-- Rust `Bump::try_alloc` when `can_fit` fails. -/
lemma try_alloc_of_none {V : Type} (b : Bump V) (t : RustType) (v : V)
    (hcf : b.can_fit t = none) : b.try_alloc t v = (Except.error v, b) := by
  unfold Bump.try_alloc Bump.try_alloc_inner
  rw [hcf]

/-- Rust `Bump::try_alloc` when `can_fit` succeeds. -/
lemma try_alloc_of_some {V : Type} (b : Bump V) (t : RustType) (v : V)
    (start end_ : Nat) (hcf : b.can_fit t = some (start, end_)) :
    b.try_alloc t v =
      (Except.ok ⟨b.metaAddr, start⟩,
       { b with
         store := fun n => if n = start then some (Slot.bare v) else b.store n,
         count := b.count + 1, first_free := end_ }) := by
  unfold Bump.try_alloc Bump.try_alloc_inner
  rw [hcf]

/-- Rust `Bump::try_alloc_rc` when `can_fit` fails on the destructor-dependent
layout. -/
lemma try_alloc_rc_of_none {V : Type} (b : Bump V) (t : RustType) (v : V)
    (hcf : b.can_fit (rcLayout t) = none) :
    b.try_alloc_rc t v = (Except.error v, b) := by
  rw [try_alloc_rc_eq]
  unfold Bump.try_alloc_inner
  rw [hcf]

/-- Rust `Bump::try_alloc_rc` when `can_fit` succeeds on the destructor-dependent
layout. -/
lemma try_alloc_rc_of_some {V : Type} (b : Bump V) (t : RustType) (v : V)
    (start end_ : Nat) (hcf : b.can_fit (rcLayout t) = some (start, end_)) :
    b.try_alloc_rc t v =
      (Except.ok ⟨b.metaAddr, start⟩,
       { b with
         store := fun n => if n = start then some (rcSlot t v) else b.store n,
         count := b.count + 1, first_free := end_ }) := by
  rw [try_alloc_rc_eq]
  unfold Bump.try_alloc_inner
  rw [hcf]

/-- A successful `Bump::try_alloc` hands out a handle that dereferences to
the allocated value. -/
lemma try_alloc_ok_deref {V : Type} (b : Bump V) (t : RustType) (v : V)
    (h : BumpMember) (hok : (b.try_alloc t v).1 = Except.ok h) :
    h.deref (b.try_alloc t v).2 = some v := by
  rcases hcf : b.can_fit t with _ | ⟨start, end_⟩
  · rw [try_alloc_of_none b t v hcf] at hok
    cases hok
  · rw [try_alloc_of_some b t v start end_ hcf] at hok ⊢
    cases hok
    simp [BumpMember.deref]

/-- A failed `Bump::try_alloc` returns the original value. -/
lemma try_alloc_err_eq {V : Type} (b : Bump V) (t : RustType) (v w : V)
    (herr : (b.try_alloc t v).1 = Except.error w) : w = v := by
  rcases hcf : b.can_fit t with _ | ⟨start, end_⟩
  · rw [try_alloc_of_none b t v hcf] at herr
    cases herr
    rfl
  · rw [try_alloc_of_some b t v start end_ hcf] at herr
    cases herr

/-- A successful `Bump::try_alloc_rc` hands out a handle that dereferences
to the allocated value through either layout. -/
lemma try_alloc_rc_ok_deref {V : Type} (b : Bump V) (t : RustType) (v : V)
    (h : RcBumpMember) (hok : (b.try_alloc_rc t v).1 = Except.ok h) :
    h.deref t (b.try_alloc_rc t v).2 = some v := by
  rcases hcf : b.can_fit (rcLayout t) with _ | ⟨start, end_⟩
  · rw [try_alloc_rc_of_none b t v hcf] at hok
    cases hok
  · rw [try_alloc_rc_of_some b t v start end_ hcf] at hok ⊢
    cases hok
    unfold RcBumpMember.deref rcSlot
    by_cases hd : t.needsDrop <;> simp [hd]

/-- A failed `Bump::try_alloc_rc` returns the original value. -/
lemma try_alloc_rc_err_eq {V : Type} (b : Bump V) (t : RustType) (v w : V)
    (herr : (b.try_alloc_rc t v).1 = Except.error w) : w = v := by
  rcases hcf : b.can_fit (rcLayout t) with _ | ⟨start, end_⟩
  · rw [try_alloc_rc_of_none b t v hcf] at herr
    cases herr
    rfl
  · rw [try_alloc_rc_of_some b t v start end_ hcf] at herr
    cases herr

/-- Rust `Paving::try_alloc` when the size guard rejects. -/
lemma paving_try_alloc_guard {V : Type} (p : Paving V) (t : RustType) (v : V)
    (freshBeg : Nat) (hg : 2 * t.size > p.capacity) :
    p.try_alloc t v freshBeg = (Except.error v, p, none) := by
  unfold Paving.try_alloc
  rw [if_pos hg]

/-- Rust `Paving::try_alloc` when the current bump accepts. -/
lemma paving_try_alloc_first_ok {V : Type} (p : Paving V) (t : RustType)
    (v : V) (freshBeg : Nat) (h : BumpMember) (b1 : Bump V)
    (hg : ¬2 * t.size > p.capacity)
    (hb : p.current_bump.try_alloc t v = (Except.ok h, b1)) :
    p.try_alloc t v freshBeg =
      (Except.ok h, { p with current_bump := b1 }, none) := by
  unfold Paving.try_alloc
  rw [if_neg hg, hb]

/-- Rust `Paving::try_alloc` when the current bump rejects: the current bump is
dropped and replaced by a brand-new bump, and the allocation is retried on
it once. -/
lemma paving_try_alloc_retry {V : Type} (p : Paving V) (t : RustType)
    (v v1 : V) (freshBeg : Nat) (b1 : Bump V)
    (hg : ¬2 * t.size > p.capacity)
    (hb : p.current_bump.try_alloc t v = (Except.error v1, b1)) :
    p.try_alloc t v freshBeg =
      (match (Bump.newRaw V p.capacity p.align freshBeg).try_alloc t v1 with
       | (Except.ok h, b') =>
           (Except.ok h, { p with current_bump := b' },
            some (decrement_and_drop p.current_bump).1)
       | (Except.error v2, b') =>
           (Except.error v2, { p with current_bump := b' },
            some (decrement_and_drop p.current_bump).1)) := by
  unfold Paving.try_alloc
  rw [if_neg hg, hb]

/-- A successful `Paving::try_alloc` hands out a handle into the paving's
current bump that dereferences to the allocated value. -/
lemma paving_try_alloc_ok_deref {V : Type} (p : Paving V) (t : RustType)
    (v : V) (freshBeg : Nat) (h : BumpMember)
    (hok : (p.try_alloc t v freshBeg).1 = Except.ok h) :
    h.deref (p.try_alloc t v freshBeg).2.1.current_bump = some v := by
  by_cases hg : 2 * t.size > p.capacity
  · rw [paving_try_alloc_guard p t v freshBeg hg] at hok
    cases hok
  · rcases hb : p.current_bump.try_alloc t v with ⟨r, b1⟩
    cases r with
    | ok h1 =>
        rw [paving_try_alloc_first_ok p t v freshBeg h1 b1 hg hb] at hok ⊢
        cases hok
        have h2 := try_alloc_ok_deref p.current_bump t v h (by rw [hb])
        rw [hb] at h2
        exact h2
    | error v1 =>
        have hv1 : v1 = v := try_alloc_err_eq p.current_bump t v v1 (by rw [hb])
        rw [hv1] at hb
        rw [paving_try_alloc_retry p t v v freshBeg b1 hg hb] at hok ⊢
        obtain ⟨r2, b2, hb2⟩ :
            ∃ r2 b2, (Bump.newRaw V p.capacity p.align freshBeg).try_alloc t v = (r2, b2) :=
          ⟨_, _, rfl⟩
        rw [hb2] at hok ⊢
        cases r2 with
        | ok h2 =>
            cases hok
            have h3 := try_alloc_ok_deref (Bump.newRaw V p.capacity p.align freshBeg)
              t v h (by rw [hb2])
            rw [hb2] at h3
            exact h3
        | error v2 => cases hok

/-- A failed `Paving::try_alloc` returns the original value. -/
lemma paving_try_alloc_err_eq {V : Type} (p : Paving V) (t : RustType)
    (v w : V) (freshBeg : Nat)
    (herr : (p.try_alloc t v freshBeg).1 = Except.error w) : w = v := by
  by_cases hg : 2 * t.size > p.capacity
  · rw [paving_try_alloc_guard p t v freshBeg hg] at herr
    cases herr
    rfl
  · rcases hb : p.current_bump.try_alloc t v with ⟨r, b1⟩
    cases r with
    | ok h1 =>
        rw [paving_try_alloc_first_ok p t v freshBeg h1 b1 hg hb] at herr
        cases herr
    | error v1 =>
        have hv1 : v1 = v := try_alloc_err_eq p.current_bump t v v1 (by rw [hb])
        rw [hv1] at hb
        rw [paving_try_alloc_retry p t v v freshBeg b1 hg hb] at herr
        obtain ⟨r2, b2, hb2⟩ :
            ∃ r2 b2, (Bump.newRaw V p.capacity p.align freshBeg).try_alloc t v = (r2, b2) :=
          ⟨_, _, rfl⟩
        rw [hb2] at herr
        cases r2 with
        | ok h2 => cases herr
        | error v2 =>
            have hv2 : v2 = v :=
              try_alloc_err_eq (Bump.newRaw V p.capacity p.align freshBeg) t v v2
                (by rw [hb2])
            cases herr
            exact hv2

/-- Rust `Paving::try_alloc_rc` when the size guard rejects. -/
lemma paving_try_alloc_rc_guard {V : Type} (p : Paving V) (t : RustType) (v : V)
    (freshBeg : Nat) (hg : 2 * t.size > p.capacity) :
    p.try_alloc_rc t v freshBeg = (Except.error v, p, none) := by
  unfold Paving.try_alloc_rc
  rw [if_pos hg]

/-- Rust `Paving::try_alloc_rc` when the current bump accepts. -/
lemma paving_try_alloc_rc_first_ok {V : Type} (p : Paving V) (t : RustType)
    (v : V) (freshBeg : Nat) (h : RcBumpMember) (b1 : Bump V)
    (hg : ¬2 * t.size > p.capacity)
    (hb : p.current_bump.try_alloc_rc t v = (Except.ok h, b1)) :
    p.try_alloc_rc t v freshBeg =
      (Except.ok h, { p with current_bump := b1 }, none) := by
  unfold Paving.try_alloc_rc
  rw [if_neg hg, hb]

/-- Rust `Paving::try_alloc_rc` when the current bump rejects: the current bump
is dropped and replaced by a brand-new bump, and the allocation is retried
on it once. -/
lemma paving_try_alloc_rc_retry {V : Type} (p : Paving V) (t : RustType)
    (v v1 : V) (freshBeg : Nat) (b1 : Bump V)
    (hg : ¬2 * t.size > p.capacity)
    (hb : p.current_bump.try_alloc_rc t v = (Except.error v1, b1)) :
    p.try_alloc_rc t v freshBeg =
      (match (Bump.newRaw V p.capacity p.align freshBeg).try_alloc_rc t v1 with
       | (Except.ok h, b') =>
           (Except.ok h, { p with current_bump := b' },
            some (decrement_and_drop p.current_bump).1)
       | (Except.error v2, b') =>
           (Except.error v2, { p with current_bump := b' },
            some (decrement_and_drop p.current_bump).1)) := by
  unfold Paving.try_alloc_rc
  rw [if_neg hg, hb]

/-- A successful `Paving::try_alloc_rc` hands out a handle into the paving's
current bump that dereferences to the allocated value. -/
lemma paving_try_alloc_rc_ok_deref {V : Type} (p : Paving V) (t : RustType)
    (v : V) (freshBeg : Nat) (h : RcBumpMember)
    (hok : (p.try_alloc_rc t v freshBeg).1 = Except.ok h) :
    h.deref t (p.try_alloc_rc t v freshBeg).2.1.current_bump = some v := by
  by_cases hg : 2 * t.size > p.capacity
  · rw [paving_try_alloc_rc_guard p t v freshBeg hg] at hok
    cases hok
  · obtain ⟨r, b1, hb⟩ :
        ∃ r b1, p.current_bump.try_alloc_rc t v = (r, b1) := ⟨_, _, rfl⟩
    cases r with
    | ok h1 =>
        rw [paving_try_alloc_rc_first_ok p t v freshBeg h1 b1 hg hb] at hok ⊢
        cases hok
        have h2 := try_alloc_rc_ok_deref p.current_bump t v h (by rw [hb])
        rw [hb] at h2
        exact h2
    | error v1 =>
        have hv1 : v1 = v := try_alloc_rc_err_eq p.current_bump t v v1 (by rw [hb])
        rw [hv1] at hb
        rw [paving_try_alloc_rc_retry p t v v freshBeg b1 hg hb] at hok ⊢
        obtain ⟨r2, b2, hb2⟩ :
            ∃ r2 b2, (Bump.newRaw V p.capacity p.align freshBeg).try_alloc_rc t v = (r2, b2) :=
          ⟨_, _, rfl⟩
        rw [hb2] at hok ⊢
        cases r2 with
        | ok h2 =>
            cases hok
            have h3 := try_alloc_rc_ok_deref (Bump.newRaw V p.capacity p.align freshBeg)
              t v h (by rw [hb2])
            rw [hb2] at h3
            exact h3
        | error v2 => cases hok

/-- A failed `Paving::try_alloc_rc` returns the original value. -/
lemma paving_try_alloc_rc_err_eq {V : Type} (p : Paving V) (t : RustType)
    (v w : V) (freshBeg : Nat)
    (herr : (p.try_alloc_rc t v freshBeg).1 = Except.error w) : w = v := by
  by_cases hg : 2 * t.size > p.capacity
  · rw [paving_try_alloc_rc_guard p t v freshBeg hg] at herr
    cases herr
    rfl
  · obtain ⟨r, b1, hb⟩ :
        ∃ r b1, p.current_bump.try_alloc_rc t v = (r, b1) := ⟨_, _, rfl⟩
    cases r with
    | ok h1 =>
        rw [paving_try_alloc_rc_first_ok p t v freshBeg h1 b1 hg hb] at herr
        cases herr
    | error v1 =>
        have hv1 : v1 = v := try_alloc_rc_err_eq p.current_bump t v v1 (by rw [hb])
        rw [hv1] at hb
        rw [paving_try_alloc_rc_retry p t v v freshBeg b1 hg hb] at herr
        obtain ⟨r2, b2, hb2⟩ :
            ∃ r2 b2, (Bump.newRaw V p.capacity p.align freshBeg).try_alloc_rc t v = (r2, b2) :=
          ⟨_, _, rfl⟩
        rw [hb2] at herr
        cases r2 with
        | ok h2 => cases herr
        | error v2 =>
            have hv2 : v2 = v :=
              try_alloc_rc_err_eq (Bump.newRaw V p.capacity p.align freshBeg) t v v2
                (by rw [hb2])
            cases herr
            exact hv2

/-- Writing through an owning handle is visible on a subsequent deref. -/
lemma derefMutSet_deref {V : Type} (b : Bump V) (h : BumpMember) (w : V) :
    h.deref (h.derefMutSet b w) = some w := by
  unfold BumpMember.deref BumpMember.derefMutSet
  simp

/-- Rust `MixedPaving::alloc` tags its result by the paving outcome and keeps the
paving state the paving call produced. -/
lemma mixed_alloc_eq {V : Type} (m : MixedPaving V) (t : RustType) (v : V)
    (freshBeg : Nat) :
    (m.alloc t v freshBeg).1 =
      (match (m.paving.try_alloc t v freshBeg).1 with
       | Except.ok h => OwnedMixedPavingMember.bumpMember h
       | Except.error w => OwnedMixedPavingMember.box w) ∧
    (m.alloc t v freshBeg).2.paving = (m.paving.try_alloc t v freshBeg).2.1 := by
  unfold MixedPaving.alloc
  obtain ⟨r, p', o, hr⟩ :
      ∃ r p' o, m.paving.try_alloc t v freshBeg = (r, p', o) := ⟨_, _, _, rfl⟩
  rw [hr]
  cases r with
  | ok h => exact ⟨rfl, rfl⟩
  | error w => exact ⟨rfl, rfl⟩

/-- Rust `MixedPaving::alloc_rc` tags its result by the paving outcome and keeps
the paving state the paving call produced. -/
lemma mixed_alloc_rc_eq {V : Type} (m : MixedPaving V) (t : RustType) (v : V)
    (freshBeg : Nat) :
    (m.alloc_rc t v freshBeg).1 =
      (match (m.paving.try_alloc_rc t v freshBeg).1 with
       | Except.ok h => SharedMixedPavingMember.rcBumpMember h
       | Except.error w => SharedMixedPavingMember.rc w) ∧
    (m.alloc_rc t v freshBeg).2.paving = (m.paving.try_alloc_rc t v freshBeg).2.1 := by
  unfold MixedPaving.alloc_rc
  obtain ⟨r, p', o, hr⟩ :
      ∃ r p' o, m.paving.try_alloc_rc t v freshBeg = (r, p', o) := ⟨_, _, _, rfl⟩
  rw [hr]
  cases r with
  | ok h => exact ⟨rfl, rfl⟩
  | error w => exact ⟨rfl, rfl⟩

/-- Rust `MixedPaving::alloc` always dereferences to the allocated value, on both
the arena-backed and the heap-backed path. -/
lemma mixed_alloc_deref {V : Type} (m : MixedPaving V) (t : RustType) (v : V)
    (freshBeg : Nat) :
    ((m.alloc t v freshBeg).1).deref (m.alloc t v freshBeg).2.paving.current_bump =
      some v := by
  rw [(mixed_alloc_eq m t v freshBeg).1, (mixed_alloc_eq m t v freshBeg).2]
  obtain ⟨r, p', o, hr⟩ :
      ∃ r p' o, m.paving.try_alloc t v freshBeg = (r, p', o) := ⟨_, _, _, rfl⟩
  rw [hr]
  cases r with
  | ok h =>
      have h2 := paving_try_alloc_ok_deref m.paving t v freshBeg h (by rw [hr])
      rw [hr] at h2
      simpa [OwnedMixedPavingMember.deref] using h2
  | error w =>
      have hw : w = v := paving_try_alloc_err_eq m.paving t v w freshBeg (by rw [hr])
      simp [OwnedMixedPavingMember.deref, hw]

/-- Rust `MixedPaving::alloc_rc` always dereferences to the allocated value, on
both the arena-backed and the heap-backed path. -/
lemma mixed_alloc_rc_deref {V : Type} (m : MixedPaving V) (t : RustType) (v : V)
    (freshBeg : Nat) :
    ((m.alloc_rc t v freshBeg).1).deref t
        (m.alloc_rc t v freshBeg).2.paving.current_bump = some v := by
  rw [(mixed_alloc_rc_eq m t v freshBeg).1, (mixed_alloc_rc_eq m t v freshBeg).2]
  obtain ⟨r, p', o, hr⟩ :
      ∃ r p' o, m.paving.try_alloc_rc t v freshBeg = (r, p', o) := ⟨_, _, _, rfl⟩
  rw [hr]
  cases r with
  | ok h =>
      have h2 := paving_try_alloc_rc_ok_deref m.paving t v freshBeg h (by rw [hr])
      rw [hr] at h2
      simpa [SharedMixedPavingMember.deref] using h2
  | error w =>
      have hw : w = v := paving_try_alloc_rc_err_eq m.paving t v w freshBeg (by rw [hr])
      simp [SharedMixedPavingMember.deref, hw]

/-- Claim C4: `MixedPaving.alloc` and `MixedPaving.alloc_rc` are total: they
return the arena-backed variant exactly when the inner paving accepts and
the heap-backed variant carrying the rejected value otherwise, and both
variants dereference to the stored value identically. -/
theorem mixed_paving_total_alloc {V : Type} (m : MixedPaving V) (t : RustType)
    (v : V) (freshBeg : Nat) :
    ((m.alloc t v freshBeg).1 =
      (match (m.paving.try_alloc t v freshBeg).1 with
       | Except.ok h => OwnedMixedPavingMember.bumpMember h
       | Except.error w => OwnedMixedPavingMember.box w)) ∧
    (((m.alloc t v freshBeg).1).deref
        (m.alloc t v freshBeg).2.paving.current_bump = some v) ∧
    ((m.alloc_rc t v freshBeg).1 =
      (match (m.paving.try_alloc_rc t v freshBeg).1 with
       | Except.ok h => SharedMixedPavingMember.rcBumpMember h
       | Except.error w => SharedMixedPavingMember.rc w)) ∧
    (((m.alloc_rc t v freshBeg).1).deref t
        (m.alloc_rc t v freshBeg).2.paving.current_bump = some v) :=
  ⟨(mixed_alloc_eq m t v freshBeg).1, mixed_alloc_deref m t v freshBeg,
   (mixed_alloc_rc_eq m t v freshBeg).1, mixed_alloc_rc_deref m t v freshBeg⟩

/-- Claim C6: allocating through any operation of the arena, the paving or
the mixed paving, owning or shared, and dereferencing the returned handle
yields the allocated value, and a mutation through an owning handle is
visible on a subsequent dereference. -/
theorem round_trip_deref {V : Type} (b : Bump V) (p : Paving V) (t : RustType)
    (v : V) (freshBeg : Nat) :
    (∀ h, (b.try_alloc t v).1 = Except.ok h →
      h.deref (b.try_alloc t v).2 = some v) ∧
    (∀ h, (b.try_alloc_rc t v).1 = Except.ok h →
      h.deref t (b.try_alloc_rc t v).2 = some v) ∧
    (∀ h, (p.try_alloc t v freshBeg).1 = Except.ok h →
      h.deref (p.try_alloc t v freshBeg).2.1.current_bump = some v) ∧
    (∀ h, (p.try_alloc_rc t v freshBeg).1 = Except.ok h →
      h.deref t (p.try_alloc_rc t v freshBeg).2.1.current_bump = some v) ∧
    (((MixedPaving.mk p).alloc t v freshBeg).1.deref
        ((MixedPaving.mk p).alloc t v freshBeg).2.paving.current_bump = some v) ∧
    (((MixedPaving.mk p).alloc_rc t v freshBeg).1.deref t
        ((MixedPaving.mk p).alloc_rc t v freshBeg).2.paving.current_bump = some v) ∧
    (∀ (b2 : Bump V) (h : BumpMember) (w : V),
      h.deref (h.derefMutSet b2 w) = some w) :=
  ⟨fun h => try_alloc_ok_deref b t v h,
   fun h => try_alloc_rc_ok_deref b t v h,
   fun h => paving_try_alloc_ok_deref p t v freshBeg h,
   fun h => paving_try_alloc_rc_ok_deref p t v freshBeg h,
   mixed_alloc_deref (MixedPaving.mk p) t v freshBeg,
   mixed_alloc_rc_deref (MixedPaving.mk p) t v freshBeg,
   fun b2 h w => derefMutSet_deref b2 h w⟩

/-- Witness for C6: each allocation succeeds on a fresh 16-byte arena at
address 8 with an 8-byte type, and all the handles read back the value. -/
theorem round_trip_deref_witness :
    ((bumpW.try_alloc (RustType.mk 8 8 false) 7).1 =
        Except.ok (BumpMember.mk 24 8) ∧
      BumpMember.deref (BumpMember.mk 24 8)
        (bumpW.try_alloc (RustType.mk 8 8 false) 7).2 = some 7) ∧
    ((bumpW.try_alloc_rc (RustType.mk 8 8 false) 7).1 =
        Except.ok (RcBumpMember.mk 24 8) ∧
      RcBumpMember.deref (RcBumpMember.mk 24 8) (RustType.mk 8 8 false)
        (bumpW.try_alloc_rc (RustType.mk 8 8 false) 7).2 = some 7) ∧
    ((pavingW.try_alloc (RustType.mk 8 8 false) 7 64).1 =
        Except.ok (BumpMember.mk 24 8) ∧
      BumpMember.deref (BumpMember.mk 24 8)
        (pavingW.try_alloc (RustType.mk 8 8 false) 7 64).2.1.current_bump = some 7) ∧
    ((pavingW.try_alloc_rc (RustType.mk 8 8 false) 7 64).1 =
        Except.ok (RcBumpMember.mk 24 8) ∧
      RcBumpMember.deref (RcBumpMember.mk 24 8) (RustType.mk 8 8 false)
        (pavingW.try_alloc_rc (RustType.mk 8 8 false) 7 64).2.1.current_bump = some 7) :=
  ⟨⟨by rfl, (round_trip_deref bumpW pavingW (RustType.mk 8 8 false) 7 64).1
      (BumpMember.mk 24 8) (by rfl)⟩,
   ⟨by rfl, (round_trip_deref bumpW pavingW (RustType.mk 8 8 false) 7 64).2.1
      (RcBumpMember.mk 24 8) (by rfl)⟩,
   ⟨by rfl, (round_trip_deref bumpW pavingW (RustType.mk 8 8 false) 7 64).2.2.1
      (BumpMember.mk 24 8) (by rfl)⟩,
   ⟨by rfl, (round_trip_deref bumpW pavingW (RustType.mk 8 8 false) 7 64).2.2.2.1
      (RcBumpMember.mk 24 8) (by rfl)⟩⟩

/-- Claim C7: cloning a shared handle changes exactly one counter and
nothing else: the arena-level count for a trivially-destructible type, the
entry's private count (arena count untouched) otherwise; the clone is the
same pointer pair and reads the same stored value. -/
theorem rc_clone_effects {V : Type} (h : RcBumpMember) (t : RustType)
    (b : Bump V) :
    (t.needsDrop = false →
      RcBumpMember.clone h t b = (h, { b with count := b.count + 1 })) ∧
    (∀ c v, t.needsDrop = true → b.store h.rc_data = some (Slot.entry c v) →
      RcBumpMember.clone h t b =
        (h, { b with
              store := fun n =>
                if n = h.rc_data then some (Slot.entry (c + 1) v)
                else b.store n }) ∧
      (RcBumpMember.clone h t b).2.count = b.count ∧
      (RcBumpMember.clone h t b).2.first_free = b.first_free ∧
      RcBumpMember.deref h t (RcBumpMember.clone h t b).2 = some v ∧
      RcBumpMember.deref h t b = some v) := by
  constructor
  · intro hd
    unfold RcBumpMember.clone
    rw [hd]
    rfl
  · intro c v hd hst
    have hcl : RcBumpMember.clone h t b =
        (h, { b with
              store := fun n =>
                if n = h.rc_data then some (Slot.entry (c + 1) v)
                else b.store n }) := by
      unfold RcBumpMember.clone
      rw [hd, hst]
      rfl
    refine ⟨hcl, by rw [hcl], by rw [hcl], ?_, ?_⟩
    · rw [hcl]
      unfold RcBumpMember.deref
      rw [hd]
      simp
    · unfold RcBumpMember.deref
      rw [hd, hst]
      rfl

/-- Witness for C7 on both layouts: a trivially-destructible clone and a
wrapped clone of the concrete entry `(2, 5)`. -/
theorem rc_clone_effects_witness :
    ((RustType.mk 8 8 false).needsDrop = false ∧
      RcBumpMember.clone (RcBumpMember.mk 24 8) (RustType.mk 8 8 false) bumpEW =
        (RcBumpMember.mk 24 8, { bumpEW with count := bumpEW.count + 1 })) ∧
    ((RustType.mk 8 8 true).needsDrop = true ∧
      bumpEW.store (RcBumpMember.mk 24 8).rc_data = some (Slot.entry 2 5) ∧
      (RcBumpMember.clone (RcBumpMember.mk 24 8) (RustType.mk 8 8 true) bumpEW).2.count =
        bumpEW.count ∧
      RcBumpMember.deref (RcBumpMember.mk 24 8) (RustType.mk 8 8 true)
        (RcBumpMember.clone (RcBumpMember.mk 24 8) (RustType.mk 8 8 true) bumpEW).2 =
        some 5) :=
  ⟨⟨rfl, (rc_clone_effects (RcBumpMember.mk 24 8) (RustType.mk 8 8 false) bumpEW).1 rfl⟩,
   ⟨rfl, rfl,
    ((rc_clone_effects (RcBumpMember.mk 24 8) (RustType.mk 8 8 true) bumpEW).2
      2 5 rfl rfl).2.1,
    ((rc_clone_effects (RcBumpMember.mk 24 8) (RustType.mk 8 8 true) bumpEW).2
      2 5 rfl rfl).2.2.2.1⟩⟩

/-- Dropping a shared handle of a wrapped entry whose private count is at
least 2 only decrements that count and emits no event. -/
lemma dropHandle_silent {V : Type} (h : RcBumpMember) (t : RustType)
    (b : Bump V) (c : Nat) (v : V) (hd : t.needsDrop = true)
    (hst : b.store h.rc_data = some (Slot.entry (c + 2) v)) :
    h.dropHandle t b =
      ({ b with
         store := fun n =>
           if n = h.rc_data then some (Slot.entry (c + 1) v) else b.store n },
       []) := by
  unfold RcBumpMember.dropHandle
  rw [hd, hst]
  rfl

/-- Dropping the last shared handle of a wrapped entry runs the destructor
and then decrements the arena count, freeing the block when that count
reaches zero. -/
lemma dropHandle_last {V : Type} (h : RcBumpMember) (t : RustType)
    (b : Bump V) (v : V) (hd : t.needsDrop = true)
    (hst : b.store h.rc_data = some (Slot.entry 1 v)) :
    (h.dropHandle t b).2 =
      Event.destructorRun :: Event.arenaDecrement ::
        (if b.count - 1 = 0 then [Event.blockFreed] else []) ∧
    (h.dropHandle t b).1.count = b.count - 1 := by
  unfold RcBumpMember.dropHandle decrement_and_drop
  rw [hd, hst]
  constructor
  · rfl
  · rfl

/-- The first `N` of `N + 1` shared-handle drops emit no event and leave the
arena count, freed flag and metadata address untouched, ending with the
entry's private count at 1. -/
lemma dropRcN_silent {V : Type} (h : RcBumpMember) (t : RustType)
    (hd : t.needsDrop = true) :
    ∀ (N : Nat) (b : Bump V) (v : V),
      b.store h.rc_data = some (Slot.entry (N + 1) v) →
      (dropRcN h t N b).2 = [] ∧
      (dropRcN h t N b).1.store h.rc_data = some (Slot.entry 1 v) ∧
      (dropRcN h t N b).1.count = b.count ∧
      (dropRcN h t N b).1.freed = b.freed := by
  intro N
  induction N with
  | zero =>
      intro b v hst
      exact ⟨rfl, hst, rfl, rfl⟩
  | succ n ih =>
      intro b v hst
      have hstep := dropHandle_silent h t b n v hd (by rw [hst])
      have hst1 :
          (h.dropHandle t b).1.store h.rc_data = some (Slot.entry (n + 1) v) := by
        rw [hstep]
        simp
      obtain ⟨he, hs, hc, hf⟩ := ih (h.dropHandle t b).1 v hst1
      have hcount : (h.dropHandle t b).1.count = b.count := by rw [hstep]
      have hfreed : (h.dropHandle t b).1.freed = b.freed := by rw [hstep]
      have hev : (h.dropHandle t b).2 = [] := by rw [hstep]
      refine ⟨?_, ?_, ?_, ?_⟩
      · show (h.dropHandle t b).2 ++ (dropRcN h t n (h.dropHandle t b).1).2 = []
        rw [hev, he]
        rfl
      · exact hs
      · rw [show (dropRcN h t (n + 1) b).1 = (dropRcN h t n (h.dropHandle t b).1).1
          from rfl, hc, hcount]
      · rw [show (dropRcN h t (n + 1) b).1 = (dropRcN h t n (h.dropHandle t b).1).1
          from rfl, hf, hfreed]

/-- Dropping all `N + 1` shared handles of a wrapped entry emits the
destructor exactly once, at the last drop, immediately before the arena
count decrement (and the block release when that count reaches zero). -/
lemma dropRcN_full {V : Type} (h : RcBumpMember) (t : RustType)
    (hd : t.needsDrop = true) :
    ∀ (N : Nat) (b : Bump V) (v : V),
      b.store h.rc_data = some (Slot.entry (N + 1) v) →
      (dropRcN h t (N + 1) b).2 =
        Event.destructorRun :: Event.arenaDecrement ::
          (if b.count - 1 = 0 then [Event.blockFreed] else []) := by
  intro N
  induction N with
  | zero =>
      intro b v hst
      have hlast := dropHandle_last h t b v hd hst
      show (h.dropHandle t b).2 ++ (dropRcN h t 0 (h.dropHandle t b).1).2 =
        Event.destructorRun :: Event.arenaDecrement ::
          (if b.count - 1 = 0 then [Event.blockFreed] else [])
      rw [hlast.1,
        show (dropRcN h t 0 (h.dropHandle t b).1).2 = [] from rfl]
      simp
  | succ n ih =>
      intro b v hst
      have hstep := dropHandle_silent h t b n v hd (by rw [hst])
      have hst1 :
          (h.dropHandle t b).1.store h.rc_data = some (Slot.entry (n + 1) v) := by
        rw [hstep]
        simp
      have hcount : (h.dropHandle t b).1.count = b.count := by rw [hstep]
      have hrec := ih (h.dropHandle t b).1 v hst1
      have hev : (h.dropHandle t b).2 = [] := by rw [hstep]
      show (h.dropHandle t b).2 ++ (dropRcN h t (n + 1) (h.dropHandle t b).1).2 =
        Event.destructorRun :: Event.arenaDecrement ::
          (if b.count - 1 = 0 then [Event.blockFreed] else [])
      rw [hev, hrec, hcount]
      simp

/-- Claim C3: for `N + 1` shared handles of a destructor-observable value
(all handles of one entry are the same pointer pair, so any drop order is
the same sequence of drops), the first `N` drops run no destructor, and the
last drop runs it exactly once, before the arena-level count decrement; an
owning handle's drop likewise runs the destructor before the decrement. -/
theorem shared_destructor_exactly_once {V : Type} (h : RcBumpMember)
    (t : RustType) (b : Bump V) (N : Nat) (v : V) (hd : t.needsDrop = true)
    (hstore : b.store h.rc_data = some (Slot.entry (N + 1) v)) :
    ((dropRcN h t N b).2 = [] ∧
     (dropRcN h t N b).1.store h.rc_data = some (Slot.entry 1 v)) ∧
    ((dropRcN h t (N + 1) b).2 =
      Event.destructorRun :: Event.arenaDecrement ::
        (if b.count - 1 = 0 then [Event.blockFreed] else [])) ∧
    ((dropRcN h t (N + 1) b).2.count Event.destructorRun = 1) ∧
    (∀ hm : BumpMember, (hm.dropHandle t b).2 =
      Event.destructorRun :: Event.arenaDecrement ::
        (if b.count - 1 = 0 then [Event.blockFreed] else [])) := by
  obtain ⟨he, hs, _, _⟩ := dropRcN_silent h t hd N b v hstore
  have hfull := dropRcN_full h t hd N b v hstore
  refine ⟨⟨he, hs⟩, hfull, ?_, ?_⟩
  · rw [hfull]
    by_cases hc : b.count - 1 = 0 <;> simp [hc, List.count_cons]
  · intro hm
    unfold BumpMember.dropHandle decrement_and_drop
    rw [hd]
    rfl

/-- Witness for C3: two shared handles of the concrete entry `(2, 5)`; the
first drop is silent, the second runs the destructor then decrements. -/
theorem shared_destructor_exactly_once_witness :
    (RustType.mk 8 8 true).needsDrop = true ∧
    bumpEW.store (RcBumpMember.mk 24 8).rc_data = some (Slot.entry (1 + 1) 5) ∧
    ((dropRcN (RcBumpMember.mk 24 8) (RustType.mk 8 8 true) 1 bumpEW).2 = [] ∧
     (dropRcN (RcBumpMember.mk 24 8) (RustType.mk 8 8 true) 1 bumpEW).1.store
        (RcBumpMember.mk 24 8).rc_data = some (Slot.entry 1 5)) ∧
    ((dropRcN (RcBumpMember.mk 24 8) (RustType.mk 8 8 true) 2 bumpEW).2 =
      Event.destructorRun :: Event.arenaDecrement ::
        (if bumpEW.count - 1 = 0 then [Event.blockFreed] else [])) ∧
    ((dropRcN (RcBumpMember.mk 24 8) (RustType.mk 8 8 true) 2 bumpEW).2.count
        Event.destructorRun = 1) :=
  ⟨rfl, rfl,
   (shared_destructor_exactly_once (RcBumpMember.mk 24 8) (RustType.mk 8 8 true)
      bumpEW 1 5 rfl rfl).1,
   (shared_destructor_exactly_once (RcBumpMember.mk 24 8) (RustType.mk 8 8 true)
      bumpEW 1 5 rfl rfl).2.1,
   (shared_destructor_exactly_once (RcBumpMember.mk 24 8) (RustType.mk 8 8 true)
      bumpEW 1 5 rfl rfl).2.2.1⟩

/-- Releasing `k` of the `count` stakes on a block frees it exactly when the
count reaches zero: the freed flag flips exactly at `k = count`, exactly one
`blockFreed` event is emitted in that case and none earlier, and the count
decreases by one per release. -/
lemma decN_spec {V : Type} :
    ∀ (k : Nat) (b : Bump V), b.freed = false → 1 ≤ b.count → k ≤ b.count →
      ((decN k b).1.freed = decide (k = b.count)) ∧
      ((decN k b).2.count Event.blockFreed = if k = b.count then 1 else 0) ∧
      ((decN k b).1.count = b.count - k) := by
  intro k
  induction k with
  | zero =>
      intro b hfr hc hk
      have hne : ¬((0 : Nat) = b.count) := by omega
      refine ⟨?_, ?_, ?_⟩
      · simp [decN, hne, hfr]
      · simp [decN, hne]
      · simp [decN]
  | succ n ih =>
      intro b hfr hc hk
      have hstep1 : (decN (n + 1) b).1 = (decN n (decrement_and_drop b).1).1 := rfl
      have hstep2 : (decN (n + 1) b).2 =
          (decrement_and_drop b).2 ++ (decN n (decrement_and_drop b).1).2 := rfl
      by_cases hone : b.count = 1
      · have hn0 : n = 0 := by omega
        subst hn0
        refine ⟨?_, ?_, ?_⟩
        · rw [hstep1]
          show (decrement_and_drop b).1.freed = decide (0 + 1 = b.count)
          unfold decrement_and_drop
          simp [hone]
        · rw [hstep2]
          unfold decrement_and_drop
          simp [hone]
          rfl
        · rw [hstep1]
          show (decrement_and_drop b).1.count = b.count - (0 + 1)
          unfold decrement_and_drop
          simp
      · have hf1 : (decrement_and_drop b).1.freed = b.freed := by
          show (if b.count - 1 = 0 then true else b.freed) = b.freed
          rw [if_neg (by omega)]
        have hcnt1 : (decrement_and_drop b).1.count = b.count - 1 := rfl
        have hev1 : (decrement_and_drop b).2 = [Event.arenaDecrement] := by
          show Event.arenaDecrement ::
              (if b.count - 1 = 0 then [Event.blockFreed] else []) = _
          rw [if_neg (by omega)]
        obtain ⟨ih1, ih2, ih3⟩ := ih (decrement_and_drop b).1
          (by rw [hf1, hfr]) (by rw [hcnt1]; omega) (by rw [hcnt1]; omega)
        refine ⟨?_, ?_, ?_⟩
        · rw [hstep1, ih1, hcnt1, decide_eq_decide]
          omega
        · rw [hstep2, hev1, List.count_append, ih2, hcnt1]
          have h0 : ([Event.arenaDecrement] : List Event).count Event.blockFreed = 0 :=
            rfl
          rw [h0]
          by_cases hx : n + 1 = b.count
          · rw [if_pos (by omega : n = b.count - 1), if_pos hx]
          · rw [if_neg (by omega : ¬n = b.count - 1), if_neg hx]
        · rw [hstep1, ih3, hcnt1]
          omega

/-- Claim C5 (amended): releasing stakes on a block frees it exactly once,
exactly when the count reaches zero, never earlier; and a `Paving`
replacement drops exactly the old arena's own stake, so it frees the old
block exactly when no handle still references it, and never when handles
remain. -/
theorem arena_freed_exactly_once (V : Type) :
    (∀ (k : Nat) (b : Bump V), b.freed = false → 1 ≤ b.count → k ≤ b.count →
      ((decN k b).1.freed = decide (k = b.count)) ∧
      ((decN k b).2.count Event.blockFreed = if k = b.count then 1 else 0)) ∧
    (∀ (p : Paving V) (t : RustType) (v : V) (freshBeg : Nat) (old : Bump V),
      (p.try_alloc t v freshBeg).2.2 = some old →
      old.count = p.current_bump.count - 1 ∧
      old.freed =
        (if p.current_bump.count - 1 = 0 then true else p.current_bump.freed) ∧
      (2 ≤ p.current_bump.count → old.freed = p.current_bump.freed)) := by
  constructor
  · intro k b hfr hc hk
    exact ⟨(decN_spec k b hfr hc hk).1, (decN_spec k b hfr hc hk).2.1⟩
  · intro p t v freshBeg old hrepl
    by_cases hg : 2 * t.size > p.capacity
    · rw [paving_try_alloc_guard p t v freshBeg hg] at hrepl
      cases hrepl
    · obtain ⟨r, b1, hb⟩ :
          ∃ r b1, p.current_bump.try_alloc t v = (r, b1) := ⟨_, _, rfl⟩
      cases r with
      | ok h1 =>
          rw [paving_try_alloc_first_ok p t v freshBeg h1 b1 hg hb] at hrepl
          cases hrepl
      | error v1 =>
          rw [paving_try_alloc_retry p t v v1 freshBeg b1 hg hb] at hrepl
          obtain ⟨r2, b2, hb2⟩ :
              ∃ r2 b2,
                (Bump.newRaw V p.capacity p.align freshBeg).try_alloc t v1 = (r2, b2) :=
            ⟨_, _, rfl⟩
          rw [hb2] at hrepl
          have hold : old = (decrement_and_drop p.current_bump).1 := by
            cases r2 with
            | ok h2 => cases hrepl; rfl
            | error v2 => cases hrepl; rfl
          subst hold
          refine ⟨rfl, rfl, ?_⟩
          intro h2c
          show (if p.current_bump.count - 1 = 0 then true else p.current_bump.freed) =
            p.current_bump.freed
          rw [if_neg (by omega)]

/-- Witness for C5: one release of the only stake frees the block exactly
once, and a concrete replacement drops exactly the old arena's stake. -/
theorem arena_freed_exactly_once_witness :
    (bumpFullW.freed = false ∧
      (decN 1 bumpFullW).1.freed = decide (1 = bumpFullW.count) ∧
      (decN 1 bumpFullW).2.count Event.blockFreed =
        (if 1 = bumpFullW.count then 1 else 0)) ∧
    ((pavingFullW.try_alloc (RustType.mk 8 8 false) 0 64).2.2 =
        some (decrement_and_drop pavingFullW.current_bump).1 ∧
      (decrement_and_drop pavingFullW.current_bump).1.count =
        pavingFullW.current_bump.count - 1) :=
  ⟨⟨rfl,
    ((arena_freed_exactly_once Nat).1 1 bumpFullW rfl (by decide) (by decide)).1,
    ((arena_freed_exactly_once Nat).1 1 bumpFullW rfl (by decide) (by decide)).2⟩,
   ⟨rfl,
    ((arena_freed_exactly_once Nat).2 pavingFullW (RustType.mk 8 8 false) 0 64
      (decrement_and_drop pavingFullW.current_bump).1 rfl).1⟩⟩

/-- Counterexample for C5 as stated: replacing the exhausted `pavingFullW`
arena, which no handle references any more, deallocates the old block
during the replacement itself. -/
theorem paving_replacement_frees_cex :
    ((pavingFullW.try_alloc (RustType.mk 8 8 false) (0 : Nat) 64).2.2).map
        (fun ob => ob.freed) = some true ∧
    pavingFullW.current_bump.count = 1 ∧
    pavingFullW.current_bump.freed = false :=
  ⟨rfl, rfl, rfl⟩

/-- Claim C1: refuted by evaluation. With paving capacity 4 the size guard
passes for a 2-byte destructor-bearing type (2 x 2 <= 4), but
`try_alloc_rc` allocates the wrapped `BumpRcEntry`, which needs 16 bytes —
more than even a brand-new 4-byte arena holds (its data region is
`roundUp 4 8 = 8` bytes) — so the guaranteed-to-succeed retry fails and the
value is returned; the source's own `debug_assert!(res.is_ok())` fires on
this input. -/
theorem paving_rc_guard_insufficient :
    (Paving.try_alloc_rc (⟨4, 8, Bump.newRaw Nat 4 8 8⟩ : Paving Nat)
        (RustType.mk 2 2 true) 0 64).1 = Except.error 0 ∧
    2 * (RustType.mk 2 2 true).size ≤
      (⟨4, 8, Bump.newRaw Nat 4 8 8⟩ : Paving Nat).capacity ∧
    (RustType.mk 2 2 true).wf = true ∧
    (entryType (RustType.mk 2 2 true)).size = 16 :=
  ⟨rfl, by decide, by decide, by decide⟩

/-- The maximum of a power of two and 8 is a power of two. -/
lemma isPow2_max8 {a : Nat} (h : isPow2 a = true) : isPow2 (max a 8) = true := by
  rcases le_total a 8 with hle | hge
  · rw [max_eq_right hle]
    decide
  · rw [max_eq_left hge]
    exact h

/-- Closed form of `inner_bump_layout`: it succeeds exactly when the
alignment is a power of two and neither layout size computation overflows
`isize::MAX`, placing the `Metadata` at offset `roundUp capacity 8`. -/
lemma inner_bump_layout_eq (capacity align : Nat) :
    inner_bump_layout capacity align =
      (if isPow2 align = true ∧ capacity + (align - 1) ≤ ISIZE_MAX ∧
          roundUp capacity 8 + 32 + (max align 8 - 1) ≤ ISIZE_MAX then
        some (⟨roundUp capacity 8 + 32, max align 8⟩, roundUp capacity 8)
      else none) := by
  unfold inner_bump_layout Layout.fromSizeAlign Layout.extend metadataLayout
  by_cases h1 : isPow2 align = true ∧ capacity + (align - 1) ≤ ISIZE_MAX
  · rw [if_pos h1]
    dsimp only
    unfold Layout.fromSizeAlign
    by_cases h2 : roundUp capacity 8 + 32 + (max align 8 - 1) ≤ ISIZE_MAX
    · have hc1 : isPow2 (max align 8) = true ∧
          roundUp capacity 8 + 32 + (max align 8 - 1) ≤ ISIZE_MAX :=
        ⟨isPow2_max8 h1.1, h2⟩
      rw [if_pos hc1, if_pos ⟨h1.1, h1.2, h2⟩]
    · have hc1 : ¬(isPow2 (max align 8) = true ∧
          roundUp capacity 8 + 32 + (max align 8 - 1) ≤ ISIZE_MAX) :=
        fun hx => h2 hx.2
      have hc2 : ¬(isPow2 align = true ∧ capacity + (align - 1) ≤ ISIZE_MAX ∧
          roundUp capacity 8 + 32 + (max align 8 - 1) ≤ ISIZE_MAX) :=
        fun hx => h2 hx.2.2
      rw [if_neg hc1, if_neg hc2]
  · have hc2 : ¬(isPow2 align = true ∧ capacity + (align - 1) ≤ ISIZE_MAX ∧
        roundUp capacity 8 + 32 + (max align 8 - 1) ≤ ISIZE_MAX) :=
      fun hx => h1 ⟨hx.1, hx.2.1⟩
    rw [if_neg h1, if_neg hc2]

/-- Claim C9 (amended): `Bump::new` aborts exactly when the capacity is
zero, the alignment is not a power of two, a layout size computation
overflows the address space, or the memory provider fails; on success the
count starts at 1 and `first_free` is the start of the data region. -/
theorem bump_new_fatal_characterization (V : Type) (capacity align : Nat)
    (provider : Option Nat) :
    (exceptIsOk (Bump.newChecked V capacity align provider) = false ↔
      capacity = 0 ∨ isPow2 align = false ∨
      ISIZE_MAX < capacity + (align - 1) ∨
      ISIZE_MAX < roundUp capacity 8 + 32 + (max align 8 - 1) ∨
      provider = none) ∧
    (∀ beg st, provider = some beg →
      Bump.newChecked V capacity align provider = Except.ok st →
      st.count = 1 ∧ st.first_free = beg ∧ st.beg = beg ∧ st.freed = false ∧
      st.metaAddr = beg + roundUp capacity 8) := by
  unfold Bump.newChecked
  rw [inner_bump_layout_eq]
  by_cases h0 : capacity = 0
  · rw [if_pos h0]
    constructor
    · exact iff_of_true rfl (Or.inl h0)
    · intro beg st hprov hok
      cases hok
  · rw [if_neg h0]
    by_cases hL : isPow2 align = true ∧ capacity + (align - 1) ≤ ISIZE_MAX ∧
        roundUp capacity 8 + 32 + (max align 8 - 1) ≤ ISIZE_MAX
    · rw [if_pos hL]
      cases provider with
      | none =>
          constructor
          · exact iff_of_true rfl (Or.inr (Or.inr (Or.inr (Or.inr rfl))))
          · intro beg st hprov hok
            cases hprov
      | some beg0 =>
          constructor
          · apply iff_of_false
            · simp [exceptIsOk]
            · rintro (hx | hx | hx | hx | hx)
              · exact h0 hx
              · rw [hL.1] at hx
                cases hx
              · omega
              · omega
              · cases hx
          · intro beg st hprov hok
            cases hprov
            cases hok
            exact ⟨rfl, rfl, rfl, rfl, rfl⟩
    · rw [if_neg hL]
      constructor
      · apply iff_of_true rfl
        by_cases hp : isPow2 align = true
        · by_cases hb1 : capacity + (align - 1) ≤ ISIZE_MAX
          · have hb2 : ¬roundUp capacity 8 + 32 + (max align 8 - 1) ≤ ISIZE_MAX :=
              fun hx => hL ⟨hp, hb1, hx⟩
            exact Or.inr (Or.inr (Or.inr (Or.inl (by omega))))
          · exact Or.inr (Or.inr (Or.inl (by omega)))
        · refine Or.inr (Or.inl ?_)
          cases hpv : isPow2 align with
          | false => rfl
          | true => exact absurd hpv hp
      · intro beg st hprov hok
        cases hok

/-- Counterexample for C9 as stated: alignment 3 is not a power of two, so
`Bump::new(16, 3)` aborts even though the capacity is nonzero, nothing
overflows and the provider delivers a block — a fatal case the claim's
enumeration omits. -/
theorem bump_new_claim_cex :
    exceptIsOk (Bump.newChecked Nat 16 3 (some 8)) = false ∧
    ¬((16 : Nat) = 0 ∨ ISIZE_MAX < 16 + (3 - 1) ∨
      ISIZE_MAX < roundUp 16 8 + 32 + (max 3 8 - 1) ∨
      (some 8 : Option Nat) = none) :=
  ⟨rfl, by decide⟩

/-- Witness for C9: `Bump::new(16, 8)` with a block at address 8 succeeds,
count 1, `first_free` at the block start, metadata 16 bytes further. -/
theorem bump_new_fatal_characterization_witness :
    ((some 8 : Option Nat) = some 8 ∧
      Bump.newChecked Nat 16 8 (some 8) =
        Except.ok
          { beg := 8, metaAddr := 8 + roundUp 16 8, first_free := 8, count := 1,
            freed := false, store := fun _ => none }) ∧
    ((⟨8, 8 + roundUp 16 8, 8, 1, false, fun _ => none⟩ : Bump Nat).count = 1 ∧
     (⟨8, 8 + roundUp 16 8, 8, 1, false, fun _ => none⟩ : Bump Nat).first_free = 8 ∧
     (⟨8, 8 + roundUp 16 8, 8, 1, false, fun _ => none⟩ : Bump Nat).beg = 8 ∧
     (⟨8, 8 + roundUp 16 8, 8, 1, false, fun _ => none⟩ : Bump Nat).freed = false ∧
     (⟨8, 8 + roundUp 16 8, 8, 1, false, fun _ => none⟩ : Bump Nat).metaAddr =
       8 + roundUp 16 8) :=
  ⟨⟨rfl, rfl⟩,
   (bump_new_fatal_characterization Nat 16 8 (some 8)).2 8
     ⟨8, 8 + roundUp 16 8, 8, 1, false, fun _ => none⟩ rfl rfl⟩

/-- Claim C10 (amended): for a zero-sized type with no destructor whose
alignment padding at the current `first_free` is zero, `try_alloc` and
`try_alloc_rc` always succeed while `first_free` stays within bounds,
consume zero bytes (`first_free` unchanged) and still increment the arena
count by one. -/
theorem zst_alloc_amended {V : Type} (b : Bump V) (t : RustType) (v : V)
    (hsz : t.size = 0) (hd : t.needsDrop = false)
    (hpad : alignOffset b.first_free t.align = 0)
    (hff : b.first_free ≤ b.metaAddr) (hmeta : b.metaAddr < USIZE) :
    ((b.try_alloc t v).1 = Except.ok ⟨b.metaAddr, b.first_free⟩ ∧
     (b.try_alloc t v).2.first_free = b.first_free ∧
     (b.try_alloc t v).2.count = b.count + 1) ∧
    ((b.try_alloc_rc t v).1 = Except.ok ⟨b.metaAddr, b.first_free⟩ ∧
     (b.try_alloc_rc t v).2.first_free = b.first_free ∧
     (b.try_alloc_rc t v).2.count = b.count + 1) := by
  have hle : b.first_free + alignOffset b.first_free t.align + t.size ≤
      b.metaAddr := by
    rw [hpad, hsz]
    simpa using hff
  have hrcl : rcLayout t = t := by
    unfold rcLayout
    rw [hd]
    rfl
  have hrle : b.first_free + alignOffset b.first_free (rcLayout t).align +
      (rcLayout t).size ≤ b.metaAddr := by
    rw [hrcl]
    exact hle
  constructor
  · rw [try_alloc_success b t v hmeta hle]
    refine ⟨by simp [hpad, hsz], by simp [hpad, hsz], rfl⟩
  · rw [try_alloc_rc_success b t v hmeta hrle]
    refine ⟨by simp [hrcl, hpad, hsz], by simp [hrcl, hpad, hsz], rfl⟩

/-- Counterexample for C10 as stated: a zero-sized type with a destructor is
allocated by `try_alloc_rc` as a nonzero-size counted entry, so on a full
arena the call fails; and an 8-aligned zero-sized type allocated at a
misaligned `first_free` consumes the padding, moving `first_free` from 9 to
16. -/
theorem zst_alloc_cex :
    (bumpRcZstW.try_alloc_rc (RustType.mk 0 1 true) 0).1 = Except.error 0 ∧
    ((bumpMisalignedW.try_alloc (RustType.mk 0 8 false) 0).2.first_free = 16 ∧
     bumpMisalignedW.first_free = 9 ∧
     exceptIsOk (bumpMisalignedW.try_alloc (RustType.mk 0 8 false) 0).1 = true) :=
  ⟨rfl, rfl, rfl, rfl⟩

/-- Witness for C10 on a full arena: a 1-aligned zero-sized type without
destructor still allocates, leaves `first_free` at the boundary and bumps
the count. -/
theorem zst_alloc_amended_witness :
    ((RustType.mk 0 1 false).size = 0 ∧ (RustType.mk 0 1 false).needsDrop = false ∧
      alignOffset bumpRcZstW.first_free (RustType.mk 0 1 false).align = 0 ∧
      bumpRcZstW.first_free ≤ bumpRcZstW.metaAddr ∧ bumpRcZstW.metaAddr < USIZE) ∧
    ((bumpRcZstW.try_alloc (RustType.mk 0 1 false) 3).1 =
        Except.ok ⟨bumpRcZstW.metaAddr, bumpRcZstW.first_free⟩ ∧
      (bumpRcZstW.try_alloc (RustType.mk 0 1 false) 3).2.first_free =
        bumpRcZstW.first_free ∧
      (bumpRcZstW.try_alloc (RustType.mk 0 1 false) 3).2.count =
        bumpRcZstW.count + 1) ∧
    ((bumpRcZstW.try_alloc_rc (RustType.mk 0 1 false) 3).1 =
        Except.ok ⟨bumpRcZstW.metaAddr, bumpRcZstW.first_free⟩ ∧
      (bumpRcZstW.try_alloc_rc (RustType.mk 0 1 false) 3).2.first_free =
        bumpRcZstW.first_free ∧
      (bumpRcZstW.try_alloc_rc (RustType.mk 0 1 false) 3).2.count =
        bumpRcZstW.count + 1) :=
  ⟨⟨rfl, rfl, rfl, by decide, by decide⟩,
   (zst_alloc_amended bumpRcZstW (RustType.mk 0 1 false) 3 rfl rfl rfl
     (by decide) (by decide)).1,
   (zst_alloc_amended bumpRcZstW (RustType.mk 0 1 false) 3 rfl rfl rfl
     (by decide) (by decide)).2⟩
